import Mathlib

/-!
Verification of the subscription-gating, hospital-search and proxy-endpoint
logic of the poramorshok-ai repository, shallowly embedded in Lean 4.

Time is modelled as a local-calendar instant: a year, a month index
(0 to 11, as returned by the JavaScript getMonth), and a position inside
the month (0 denotes the first instant of the month, i.e. day 1 at local
midnight).  Instants are totally ordered lexicographically, which agrees
with the ordering of JavaScript Date values since calendar months do not
overlap.
-/

/-- A local-calendar instant: year, month index (0-11), and offset within
the month, with 0 the first instant of the month. -/
structure Instant where
  year : Int
  month : Nat
  sub : Nat
deriving DecidableEq, Repr

/-- Comparison of instants, lexicographic on (year, month, sub); models
comparison of JavaScript Date values. -/
def Instant.le (a b : Instant) : Bool :=
  if a.year < b.year then true
  else if b.year < a.year then false
  else if a.month < b.month then true
  else if b.month < a.month then false
  else decide (a.sub ≤ b.sub)

/-- Absolute month index of an instant (12 * year + month), used to state
that one instant lies in the calendar month following another. -/
def monthIndex (t : Instant) : Int :=
  12 * t.year + (t.month : Int)

/-! ## Context variant: src/contexts/SubscriptionContext.tsx -/

inductive SubscriptionPlan where
  | basic
  | pro
deriving DecidableEq, Repr

/-- The subscription state held by SubscriptionContext.tsx: plan, usage
count for the nearby feature, and the ISO date at which usage resets. -/
structure SubscriptionState where
  plan : SubscriptionPlan
  nearbyUsageCount : Nat
  nearbyUsageResetDate : Instant
deriving DecidableEq, Repr

/-- Basic plan limit per month (NEARBY_USAGE_LIMIT in the source). -/
def NEARBY_USAGE_LIMIT : Nat := 5

/-- getMonthResetDate: new Date(now.getFullYear(), now.getMonth() + 1, 1),
the first instant of the calendar month after the moment of the call, with
JavaScript Date month normalization (month 12 rolls into the next year). -/
def getMonthResetDate (now : Instant) : Instant :=
  { year := now.year + (((now.month + 1) / 12 : Nat) : Int)
    month := (now.month + 1) % 12
    sub := 0 }

/-- isUsageExpired: new Date() >= new Date(resetDate). -/
def isUsageExpired (resetDate : Instant) (now : Instant) : Bool :=
  Instant.le resetDate now

/-- canUseNearby (SubscriptionContext.tsx lines 90-101): pro always may
use the feature; basic may when the period has expired or the count is
below the limit. -/
def canUseNearby (s : SubscriptionState) (now : Instant) : Bool :=
  if s.plan = SubscriptionPlan.pro then true
  else if isUsageExpired s.nearbyUsageResetDate now then true
  else decide (s.nearbyUsageCount < NEARBY_USAGE_LIMIT)

/-- nearbyUsageRemaining (lines 103-113): none models the Infinity
returned for pro; for basic, Math.max(0, limit - count) is Nat
subtraction. -/
def nearbyUsageRemaining (s : SubscriptionState) (now : Instant) : Option Nat :=
  if s.plan = SubscriptionPlan.pro then none
  else if isUsageExpired s.nearbyUsageResetDate now then some NEARBY_USAGE_LIMIT
  else some (NEARBY_USAGE_LIMIT - s.nearbyUsageCount)

/-- useNearbyService (lines 119-144): returns whether usage was allowed
together with the successor state. -/
def useNearbyService (s : SubscriptionState) (now : Instant) :
    Bool × SubscriptionState :=
  if s.plan = SubscriptionPlan.pro then (true, s)
  else if isUsageExpired s.nearbyUsageResetDate now then
    (true, { s with nearbyUsageCount := 1
                    nearbyUsageResetDate := getMonthResetDate now })
  else if s.nearbyUsageCount < NEARBY_USAGE_LIMIT then
    (true, { s with nearbyUsageCount := s.nearbyUsageCount + 1 })
  else (false, s)

/-- resetUsageCount (lines 146-152). -/
def resetUsageCount (s : SubscriptionState) (now : Instant) : SubscriptionState :=
  { s with nearbyUsageCount := 0, nearbyUsageResetDate := getMonthResetDate now }

/-- upgradeToPro (lines 154-159): only the plan field is written. -/
def upgradeToPro (s : SubscriptionState) : SubscriptionState :=
  { s with plan := SubscriptionPlan.pro }

/-- downgradeToBasic (lines 161-166): only the plan field is written. -/
def downgradeToBasic (s : SubscriptionState) : SubscriptionState :=
  { s with plan := SubscriptionPlan.basic }

/-- The state installed by useState before any stored record is applied:
plan basic, count 0, reset date the first instant of the next month. -/
def initialCtxState (now : Instant) : SubscriptionState :=
  { plan := SubscriptionPlan.basic
    nearbyUsageCount := 0
    nearbyUsageResetDate := getMonthResetDate now }

/-- Iterated useNearbyService against a fixed clock: the state after n
consecutive calls. -/
def useN (n : Nat) (s : SubscriptionState) (now : Instant) : SubscriptionState :=
  match n with
  | 0 => s
  | k + 1 => (useNearbyService (useN k s now) now).2

/-! ## Hook variant: src/unnamed/part_001 (useSubscription hook) -/

namespace Hook

/-- The hook variant state (src/unnamed/part_001): it stores the limit but
carries no reset timestamp. -/
structure SubscriptionState where
  plan : SubscriptionPlan
  nearbyUsageCount : Nat
  nearbyUsageLimit : Nat
deriving DecidableEq, Repr

/-- DEFAULT_SUBSCRIPTION_STATE (src/unnamed/part_001 lines 4-8). -/
def DEFAULT_SUBSCRIPTION_STATE : SubscriptionState :=
  { plan := SubscriptionPlan.basic
    nearbyUsageCount := 0
    nearbyUsageLimit := 5 }

/-- updatePlan (lines 34-41): overwrites the plan and resets the usage
count to 0. -/
def updatePlan (s : SubscriptionState) (p : SubscriptionPlan) : SubscriptionState :=
  { s with plan := p, nearbyUsageCount := 0 }

/-- incrementNearbyUsage (lines 43-48). -/
def incrementNearbyUsage (s : SubscriptionState) : SubscriptionState :=
  { s with nearbyUsageCount := s.nearbyUsageCount + 1 }

/-- canUseNearby (lines 50-53): pro, or count strictly below the stored
limit; no dependence on the clock. -/
def canUseNearby (s : SubscriptionState) : Bool :=
  decide (s.plan = SubscriptionPlan.pro) ||
    decide (s.nearbyUsageCount < s.nearbyUsageLimit)

/-- getRemainingNearbyUses (lines 55-58); none models Infinity and Nat
subtraction models Math.max(0, limit - count). -/
def getRemainingNearbyUses (s : SubscriptionState) : Option Nat :=
  if s.plan = SubscriptionPlan.pro then none
  else some (s.nearbyUsageLimit - s.nearbyUsageCount)

/-- A stored hook record is a partial JSON object: each field may be
absent, and absent fields are filled from the defaults by the spread
in the initializer. -/
structure Stored where
  plan : Option SubscriptionPlan
  nearbyUsageCount : Option Nat
  nearbyUsageLimit : Option Nat
deriving DecidableEq, Repr

/-- JSON.stringify of a hook state: all fields present. -/
def save (s : SubscriptionState) : Stored :=
  { plan := some s.plan
    nearbyUsageCount := some s.nearbyUsageCount
    nearbyUsageLimit := some s.nearbyUsageLimit }

/-- What localStorage.getItem followed by JSON.parse can yield: nothing
stored, a record that fails to parse, or a parsed partial record. -/
inductive StoredRecord where
  | absent
  | malformed
  | valid (p : Stored)
deriving DecidableEq, Repr

/-- The useState initializer (lines 13-23): absent or malformed records
give the default state; a parsed record is spread over the defaults,
absent fields falling back to the default values. -/
def load (r : StoredRecord) : SubscriptionState :=
  match r with
  | StoredRecord.absent => DEFAULT_SUBSCRIPTION_STATE
  | StoredRecord.malformed => DEFAULT_SUBSCRIPTION_STATE
  | StoredRecord.valid p =>
      { plan := p.plan.getD DEFAULT_SUBSCRIPTION_STATE.plan
        nearbyUsageCount :=
          p.nearbyUsageCount.getD DEFAULT_SUBSCRIPTION_STATE.nearbyUsageCount
        nearbyUsageLimit :=
          p.nearbyUsageLimit.getD DEFAULT_SUBSCRIPTION_STATE.nearbyUsageLimit }

end Hook

/-! ## Persistence of the context variant (SubscriptionContext.tsx lines 58-88) -/

/-- What the context variant finds under the subscription key: nothing, a
string that fails to parse, or a parsed full state. -/
inductive CtxStoredRecord where
  | absent
  | malformed
  | valid (s : SubscriptionState)
deriving DecidableEq, Repr

/-- The save effect: JSON.stringify of the whole state. -/
def ctxSave (s : SubscriptionState) : CtxStoredRecord :=
  CtxStoredRecord.valid s

/-- The load effect (lines 58-79): absent keeps the initial default state;
a parse failure is caught, logged and leaves the default in place; a
parsed state is installed as is unless its period has expired, in which
case the count is zeroed and the reset date recomputed. -/
def ctxLoad (r : CtxStoredRecord) (now : Instant) : SubscriptionState :=
  match r with
  | CtxStoredRecord.absent => initialCtxState now
  | CtxStoredRecord.malformed => initialCtxState now
  | CtxStoredRecord.valid s =>
      if isUsageExpired s.nearbyUsageResetDate now then
        { s with nearbyUsageCount := 0
                 nearbyUsageResetDate := getMonthResetDate now }
      else s

/-! ## Hospital search workflow: src/components/Nearby.tsx handleFind -/

/-- A hospital record as produced by the search (src/types); coordinates
are kept abstract as integers since the workflow only passes them
through. -/
structure Hospital where
  name : String
  address : String
  phone : Option String
  ambulancePhone : Option String
  latitude : Int
  longitude : Int
deriving DecidableEq, Repr

/-- A raw result from the places proxy response, with the fields the
mapping in handleFind reads. -/
structure RawPlace where
  name : String
  vicinity : Option String
  formattedAddress : Option String
  lat : Option Int
  lng : Option Int
deriving DecidableEq, Repr

/-- JavaScript a || b on strings: empty or missing is falsy. -/
def jsOrStr (a b : Option String) : Option String :=
  match a with
  | some s => if s = "" then b else some s
  | none => b

/-- The mapping applied to the proxy response in handleFind:
(data.results || []).slice(0, 10).map(...), with vicinity falling back to
formatted_address then to the empty string, and coordinates falling back
to the device position. -/
def mapRawPlaces (lat lon : Int) (rs : List RawPlace) : List Hospital :=
  (rs.take 10).map (fun r =>
    { name := r.name
      address := (jsOrStr r.vicinity r.formattedAddress).getD ""
      phone := none
      ambulancePhone := none
      latitude := r.lat.getD lat
      longitude := r.lng.getD lon })

/-- Outcome of the fetch to the backend proxy: the fetch throws, the
response is not ok, or it is ok with a parsed result list. -/
inductive ProxyOutcome where
  | netError
  | httpError
  | ok (rs : List RawPlace)
deriving DecidableEq, Repr

/-- Result of the fetching stage: the hospital list shown, the list of
(lat, lon, language) arguments of every fallback AI invocation, and the
user-facing error message, if any. -/
structure FetchResult where
  hospitals : List Hospital
  fallbackCalls : List (Int × Int × String)
  errorShown : Option String
deriving DecidableEq, Repr

/-- The fallback branch of handleFind: findNearbyHospitals(lat, lon,
language); a throw is caught by the outer handler which shows the generic
noHospitalsFound message, and a null result becomes the empty list. -/
def runFallback (ai : Int → Int → String → Except Unit (List Hospital))
    (lat lon : Int) (lang : String) : FetchResult :=
  match ai lat lon lang with
  | Except.ok hs => { hospitals := hs, fallbackCalls := [(lat, lon, lang)], errorShown := none }
  | Except.error _ =>
      { hospitals := []
        fallbackCalls := [(lat, lon, lang)]
        errorShown := some "noHospitalsFound" }

/-- The fetching stage of handleFind (Nearby.tsx lines 71-103): the proxy
is tried first with its errors swallowed; if it failed or produced zero
results the AI fallback runs with the same coordinates and language;
otherwise the proxy results are shown and the fallback is not invoked. -/
def fetchStage (proxy : ProxyOutcome)
    (ai : Int → Int → String → Except Unit (List Hospital))
    (lat lon : Int) (lang : String) : FetchResult :=
  let results : Option (List Hospital) :=
    match proxy with
    | ProxyOutcome.ok rs => some (mapRawPlaces lat lon rs)
    | _ => none
  match results with
  | none => runFallback ai lat lon lang
  | some hs =>
      if hs.isEmpty then runFallback ai lat lon lang
      else { hospitals := hs, fallbackCalls := [], errorShown := none }

/-! ## Proxy endpoint: src/server/server.js GET /api/nearby-hospitals -/

/-- The request handed to axios.get, as assembled from URLSearchParams. -/
structure UpstreamRequest where
  location : String
  radius : String
  placeType : String
  key : String
  keyword : Option String
deriving DecidableEq, Repr

/-- Outcome of the axios call: it throws, or yields a JSON body. -/
inductive UpstreamOutcome where
  | throws
  | ok (data : String)
deriving DecidableEq, Repr

/-- Body of the response the endpoint sends. -/
inductive ResponseBody where
  | errorMsg (s : String)
  | json (s : String)
deriving DecidableEq, Repr

/-- JavaScript truthiness of an optional query string: undefined and the
empty string are falsy. -/
def jsTruthy (o : Option String) : Bool :=
  match o with
  | none => false
  | some s => decide (s ≠ "")

/-- The URLSearchParams assembled by the route: fixed 5 km radius,
hospital type, the configured key, and the keyword only when present and
truthy. -/
def buildUpstreamRequest (lat lon keyword : Option String) (apiKey : String) :
    UpstreamRequest :=
  { location := lat.getD "" ++ "," ++ lon.getD ""
    radius := "5000"
    placeType := "hospital"
    key := apiKey
    keyword := match keyword with
      | some k => if k = "" then none else some k
      | none => none }

/-- GET /api/nearby-hospitals (server.js lines 17-40): status, body, and
the list of upstream requests actually made. -/
def nearbyHospitalsRoute (lat lon keyword : Option String) (apiKey : String)
    (upstream : UpstreamRequest → UpstreamOutcome) :
    Nat × ResponseBody × List UpstreamRequest :=
  if !(jsTruthy lat) || !(jsTruthy lon) then
    (400, ResponseBody.errorMsg "lat and lon are required", [])
  else
    let req := buildUpstreamRequest lat lon keyword apiKey
    match upstream req with
    | UpstreamOutcome.ok data => (200, ResponseBody.json data, [req])
    | UpstreamOutcome.throws =>
        (500, ResponseBody.errorMsg "Failed to fetch nearby hospitals", [req])

/-! ## Theorems about the claims -/

/-- C1 counterexample: a pro state whose period has expired. The claim
quantifies over every state with now at or past the reset date, but for a
pro plan useNearbyService returns true without touching the state, so the
usage count stays 3 instead of being set to 1. -/
theorem spec_C1_counterexample :
    isUsageExpired (Instant.mk 2024 0 0) (Instant.mk 2024 5 0) = true ∧
    useNearbyService
      (SubscriptionState.mk SubscriptionPlan.pro 3 (Instant.mk 2024 0 0))
      (Instant.mk 2024 5 0) =
      (true, SubscriptionState.mk SubscriptionPlan.pro 3 (Instant.mk 2024 0 0)) ∧
    (useNearbyService
      (SubscriptionState.mk SubscriptionPlan.pro 3 (Instant.mk 2024 0 0))
      (Instant.mk 2024 5 0)).2.nearbyUsageCount ≠ 1 := by
  refine ⟨rfl, rfl, ?_⟩
  decide

/-- C1 amended: for every state with now at or past the reset date,
canUseNearby is true regardless of the stored count; and when the plan is
basic, the next useNearbyService succeeds, sets the count to 1 and sets
the reset date to the first instant (sub = 0) of the calendar month
following the moment of the call (month index advanced by exactly one),
computed on the local calendar. -/
theorem spec_C1_lazy_reset (s : SubscriptionState) (now : Instant)
    (h : isUsageExpired s.nearbyUsageResetDate now = true) :
    canUseNearby s now = true ∧
    (s.plan = SubscriptionPlan.basic →
      useNearbyService s now =
        (true, { s with nearbyUsageCount := 1
                        nearbyUsageResetDate := getMonthResetDate now })) ∧
    monthIndex (getMonthResetDate now) = monthIndex now + 1 ∧
    (getMonthResetDate now).sub = 0 := by
  refine ⟨?_, ?_, ?_, rfl⟩
  · by_cases hp : s.plan = SubscriptionPlan.pro <;> simp [canUseNearby, hp, h]
  · intro hb
    simp [useNearbyService, hb, h]
  · simp only [monthIndex, getMonthResetDate]
    push_cast
    omega

/-- Witness for spec_C1_lazy_reset at a concrete basic state. -/
theorem spec_C1_lazy_reset_witness :
    isUsageExpired (Instant.mk 2024 0 0) (Instant.mk 2024 1 5) = true ∧
    (canUseNearby
        (SubscriptionState.mk SubscriptionPlan.basic 4 (Instant.mk 2024 0 0))
        (Instant.mk 2024 1 5) = true ∧
      ((SubscriptionState.mk SubscriptionPlan.basic 4 (Instant.mk 2024 0 0)).plan =
          SubscriptionPlan.basic →
        useNearbyService
            (SubscriptionState.mk SubscriptionPlan.basic 4 (Instant.mk 2024 0 0))
            (Instant.mk 2024 1 5) =
          (true,
            { SubscriptionState.mk SubscriptionPlan.basic 4 (Instant.mk 2024 0 0) with
                nearbyUsageCount := 1
                nearbyUsageResetDate := getMonthResetDate (Instant.mk 2024 1 5) })) ∧
      monthIndex (getMonthResetDate (Instant.mk 2024 1 5)) =
        monthIndex (Instant.mk 2024 1 5) + 1 ∧
      (getMonthResetDate (Instant.mk 2024 1 5)).sub = 0) :=
  ⟨by decide,
    spec_C1_lazy_reset
      (SubscriptionState.mk SubscriptionPlan.basic 4 (Instant.mk 2024 0 0))
      (Instant.mk 2024 1 5) (by decide)⟩

/-- C2: a basic state below the limit inside the current period: access is
granted and useNearbyService succeeds, incrementing the count by exactly
one while leaving the plan and the reset date unchanged. -/
theorem spec_C2_basic_increment (s : SubscriptionState) (now : Instant)
    (h1 : s.plan = SubscriptionPlan.basic)
    (h2 : s.nearbyUsageCount < NEARBY_USAGE_LIMIT)
    (h3 : isUsageExpired s.nearbyUsageResetDate now = false) :
    canUseNearby s now = true ∧
    useNearbyService s now =
      (true, { s with nearbyUsageCount := s.nearbyUsageCount + 1 }) ∧
    (useNearbyService s now).2.plan = s.plan ∧
    (useNearbyService s now).2.nearbyUsageResetDate = s.nearbyUsageResetDate := by
  refine ⟨?_, ?_, ?_, ?_⟩ <;> simp [canUseNearby, useNearbyService, h1, h2, h3]

/-- Witness for spec_C2_basic_increment at a concrete state. -/
theorem spec_C2_basic_increment_witness :
    (SubscriptionState.mk SubscriptionPlan.basic 2 (Instant.mk 2024 4 0)).plan =
      SubscriptionPlan.basic ∧
    (SubscriptionState.mk SubscriptionPlan.basic 2 (Instant.mk 2024 4 0)).nearbyUsageCount <
      NEARBY_USAGE_LIMIT ∧
    isUsageExpired (Instant.mk 2024 4 0) (Instant.mk 2024 3 9) = false ∧
    (canUseNearby
        (SubscriptionState.mk SubscriptionPlan.basic 2 (Instant.mk 2024 4 0))
        (Instant.mk 2024 3 9) = true ∧
      useNearbyService
          (SubscriptionState.mk SubscriptionPlan.basic 2 (Instant.mk 2024 4 0))
          (Instant.mk 2024 3 9) =
        (true,
          { SubscriptionState.mk SubscriptionPlan.basic 2 (Instant.mk 2024 4 0) with
              nearbyUsageCount :=
                (SubscriptionState.mk SubscriptionPlan.basic 2
                    (Instant.mk 2024 4 0)).nearbyUsageCount + 1 }) ∧
      (useNearbyService
          (SubscriptionState.mk SubscriptionPlan.basic 2 (Instant.mk 2024 4 0))
          (Instant.mk 2024 3 9)).2.plan =
        (SubscriptionState.mk SubscriptionPlan.basic 2 (Instant.mk 2024 4 0)).plan ∧
      (useNearbyService
          (SubscriptionState.mk SubscriptionPlan.basic 2 (Instant.mk 2024 4 0))
          (Instant.mk 2024 3 9)).2.nearbyUsageResetDate =
        (SubscriptionState.mk SubscriptionPlan.basic 2
            (Instant.mk 2024 4 0)).nearbyUsageResetDate) :=
  ⟨rfl, by decide, by decide,
    spec_C2_basic_increment
      (SubscriptionState.mk SubscriptionPlan.basic 2 (Instant.mk 2024 4 0))
      (Instant.mk 2024 3 9) rfl (by decide) (by decide)⟩

/-- Helper: starting from a fresh basic state inside the current period,
k consecutive useNearbyService calls (k at most the limit) leave a basic
state with count k and the reset date untouched. -/
theorem useN_fresh_basic (r now : Instant)
    (h : isUsageExpired r now = false) :
    ∀ k, k ≤ NEARBY_USAGE_LIMIT →
      useN k (SubscriptionState.mk SubscriptionPlan.basic 0 r) now =
        SubscriptionState.mk SubscriptionPlan.basic k r := by
  intro k
  induction k with
  | zero => intro _; rfl
  | succ m ih =>
      intro hm
      have hm5 : m ≤ NEARBY_USAGE_LIMIT := Nat.le_of_succ_le hm
      have hmlt : m < NEARBY_USAGE_LIMIT := Nat.lt_of_succ_le hm
      simp only [useN, ih hm5]
      simp [useNearbyService, h, hmlt]

/-- C3: a basic state at the limit inside the current period: access is
denied and useNearbyService fails without mutating the state.  Scenario:
from a fresh basic state with count 0, each of the first five calls
succeeds, the sixth returns false, and nearbyUsageRemaining then
returns 0. -/
theorem spec_C3_limit_blocks (s : SubscriptionState) (now r : Instant)
    (h1 : s.plan = SubscriptionPlan.basic)
    (h2 : s.nearbyUsageCount = NEARBY_USAGE_LIMIT)
    (h3 : isUsageExpired s.nearbyUsageResetDate now = false)
    (h4 : isUsageExpired r now = false) :
    canUseNearby s now = false ∧
    useNearbyService s now = (false, s) ∧
    (List.range NEARBY_USAGE_LIMIT).all
      (fun k =>
        (useNearbyService
          (useN k (SubscriptionState.mk SubscriptionPlan.basic 0 r) now) now).1) =
      true ∧
    (useNearbyService
      (useN NEARBY_USAGE_LIMIT (SubscriptionState.mk SubscriptionPlan.basic 0 r) now)
      now).1 = false ∧
    nearbyUsageRemaining
      (useN NEARBY_USAGE_LIMIT (SubscriptionState.mk SubscriptionPlan.basic 0 r) now)
      now = some 0 := by
  refine ⟨?_, ?_, ?_, ?_, ?_⟩
  · simp [canUseNearby, h1, h2, h3]
  · simp [useNearbyService, h1, h2, h3]
  · rw [List.all_eq_true]
    intro k hk
    have hk5 : k < NEARBY_USAGE_LIMIT := List.mem_range.mp hk
    rw [useN_fresh_basic r now h4 k (Nat.le_of_lt hk5)]
    simp [useNearbyService, h4, hk5]
  · rw [useN_fresh_basic r now h4 NEARBY_USAGE_LIMIT (Nat.le_refl _)]
    simp [useNearbyService, h4, NEARBY_USAGE_LIMIT]
  · rw [useN_fresh_basic r now h4 NEARBY_USAGE_LIMIT (Nat.le_refl _)]
    simp [nearbyUsageRemaining, h4, NEARBY_USAGE_LIMIT]

/-- Witness for spec_C3_limit_blocks at concrete states. -/
theorem spec_C3_limit_blocks_witness :
    (SubscriptionState.mk SubscriptionPlan.basic 5 (Instant.mk 2024 3 0)).plan =
      SubscriptionPlan.basic ∧
    (SubscriptionState.mk SubscriptionPlan.basic 5
        (Instant.mk 2024 3 0)).nearbyUsageCount = NEARBY_USAGE_LIMIT ∧
    isUsageExpired (Instant.mk 2024 3 0) (Instant.mk 2024 2 7) = false ∧
    (canUseNearby
        (SubscriptionState.mk SubscriptionPlan.basic 5 (Instant.mk 2024 3 0))
        (Instant.mk 2024 2 7) = false ∧
      useNearbyService
          (SubscriptionState.mk SubscriptionPlan.basic 5 (Instant.mk 2024 3 0))
          (Instant.mk 2024 2 7) =
        (false, SubscriptionState.mk SubscriptionPlan.basic 5 (Instant.mk 2024 3 0)) ∧
      (List.range NEARBY_USAGE_LIMIT).all
        (fun k =>
          (useNearbyService
            (useN k (SubscriptionState.mk SubscriptionPlan.basic 0 (Instant.mk 2024 3 0))
              (Instant.mk 2024 2 7)) (Instant.mk 2024 2 7)).1) = true ∧
      (useNearbyService
        (useN NEARBY_USAGE_LIMIT
          (SubscriptionState.mk SubscriptionPlan.basic 0 (Instant.mk 2024 3 0))
          (Instant.mk 2024 2 7)) (Instant.mk 2024 2 7)).1 = false ∧
      nearbyUsageRemaining
        (useN NEARBY_USAGE_LIMIT
          (SubscriptionState.mk SubscriptionPlan.basic 0 (Instant.mk 2024 3 0))
          (Instant.mk 2024 2 7)) (Instant.mk 2024 2 7) = some 0) :=
  ⟨rfl, rfl, by decide,
    spec_C3_limit_blocks
      (SubscriptionState.mk SubscriptionPlan.basic 5 (Instant.mk 2024 3 0))
      (Instant.mk 2024 2 7) (Instant.mk 2024 3 0) rfl rfl (by decide) (by decide)⟩

/-- C4: for a pro state, canUseNearby is true and useNearbyService
succeeds returning the state itself, so plan, usage count and reset date
are all unchanged, for every stored count and every current time. -/
theorem spec_C4_pro_frame (s : SubscriptionState) (now : Instant)
    (h : s.plan = SubscriptionPlan.pro) :
    canUseNearby s now = true ∧ useNearbyService s now = (true, s) := by
  constructor <;> simp [canUseNearby, useNearbyService, h]

/-- Witness for spec_C4_pro_frame at a concrete pro state. -/
theorem spec_C4_pro_frame_witness :
    (SubscriptionState.mk SubscriptionPlan.pro 7 (Instant.mk 2024 0 0)).plan =
      SubscriptionPlan.pro ∧
    (canUseNearby
        (SubscriptionState.mk SubscriptionPlan.pro 7 (Instant.mk 2024 0 0))
        (Instant.mk 2024 6 3) = true ∧
      useNearbyService
          (SubscriptionState.mk SubscriptionPlan.pro 7 (Instant.mk 2024 0 0))
          (Instant.mk 2024 6 3) =
        (true, SubscriptionState.mk SubscriptionPlan.pro 7 (Instant.mk 2024 0 0))) :=
  ⟨rfl,
    spec_C4_pro_frame
      (SubscriptionState.mk SubscriptionPlan.pro 7 (Instant.mk 2024 0 0))
      (Instant.mk 2024 6 3) rfl⟩

/-- C5 counterexample: the context-variant plan changes do not reset the
usage count.  upgradeToPro on a basic state with count 3 yields a pro
state whose count is still 3, not 0, and whose reset date is untouched. -/
theorem spec_C5_counterexample :
    upgradeToPro
      (SubscriptionState.mk SubscriptionPlan.basic 3 (Instant.mk 2024 0 0)) =
      SubscriptionState.mk SubscriptionPlan.pro 3 (Instant.mk 2024 0 0) ∧
    (upgradeToPro
      (SubscriptionState.mk SubscriptionPlan.basic 3
        (Instant.mk 2024 0 0))).nearbyUsageCount ≠ 0 := by
  refine ⟨rfl, ?_⟩
  decide

/-- C5 amended: only the hook-variant updatePlan resets the usage count
to 0 when overwriting the plan (its state has no reset timestamp to
recompute); the context-variant upgradeToPro and downgradeToBasic
overwrite the plan field only, leaving the usage count and the reset date
unchanged. -/
theorem spec_C5_plan_change (s : SubscriptionState) (hs : Hook.SubscriptionState)
    (p : SubscriptionPlan) :
    Hook.updatePlan hs p =
      Hook.SubscriptionState.mk p 0 hs.nearbyUsageLimit ∧
    upgradeToPro s =
      SubscriptionState.mk SubscriptionPlan.pro s.nearbyUsageCount
        s.nearbyUsageResetDate ∧
    downgradeToBasic s =
      SubscriptionState.mk SubscriptionPlan.basic s.nearbyUsageCount
        s.nearbyUsageResetDate :=
  ⟨rfl, rfl, rfl⟩

/-- C6 counterexample: the context-variant load applies the lazy rollover,
so a state whose period has expired at load time does not round-trip:
saving a basic state with count 5 and reset date at the start of January
2024 and loading it later in January yields count 0 and a new reset date,
so usageCount is not preserved. -/
theorem spec_C6_counterexample :
    isUsageExpired (Instant.mk 2024 0 0) (Instant.mk 2024 0 5) = true ∧
    ctxLoad
      (ctxSave (SubscriptionState.mk SubscriptionPlan.basic 5 (Instant.mk 2024 0 0)))
      (Instant.mk 2024 0 5) ≠
      SubscriptionState.mk SubscriptionPlan.basic 5 (Instant.mk 2024 0 0) ∧
    (ctxLoad
      (ctxSave (SubscriptionState.mk SubscriptionPlan.basic 5 (Instant.mk 2024 0 0)))
      (Instant.mk 2024 0 5)).nearbyUsageCount = 0 := by
  refine ⟨by decide, by decide, rfl⟩

/-- C6 amended: saving then loading preserves plan, usage count and reset
date in the context variant provided the load happens before the stored
reset date (otherwise the load zeroes the count and recomputes the reset
date, per the lazy rollover); in the hook variant the round-trip always
restores the state exactly, with fields absent in storage filled from the
defaults. -/
theorem spec_C6_roundtrip (s : SubscriptionState) (hs : Hook.SubscriptionState)
    (now : Instant)
    (h : isUsageExpired s.nearbyUsageResetDate now = false) :
    ctxLoad (ctxSave s) now = s ∧
    Hook.load (Hook.StoredRecord.valid (Hook.save hs)) = hs := by
  constructor
  · simp [ctxLoad, ctxSave, h]
  · rfl

/-- Witness for spec_C6_roundtrip at concrete states. -/
theorem spec_C6_roundtrip_witness :
    isUsageExpired (Instant.mk 2024 6 0) (Instant.mk 2024 5 2) = false ∧
    (ctxLoad
        (ctxSave (SubscriptionState.mk SubscriptionPlan.basic 2 (Instant.mk 2024 6 0)))
        (Instant.mk 2024 5 2) =
      SubscriptionState.mk SubscriptionPlan.basic 2 (Instant.mk 2024 6 0) ∧
      Hook.load
          (Hook.StoredRecord.valid
            (Hook.save (Hook.SubscriptionState.mk SubscriptionPlan.pro 4 5))) =
        Hook.SubscriptionState.mk SubscriptionPlan.pro 4 5) :=
  ⟨by decide,
    spec_C6_roundtrip
      (SubscriptionState.mk SubscriptionPlan.basic 2 (Instant.mk 2024 6 0))
      (Hook.SubscriptionState.mk SubscriptionPlan.pro 4 5)
      (Instant.mk 2024 5 2) (by decide)⟩

/-- C7: in the fetching stage of handleFind, when the proxy fetch throws
or the proxy returns zero results, the AI fallback runs exactly once with
the same coordinates and language and no error is surfaced (given the
fallback itself succeeds); when the proxy returns a non-empty list, the
fallback is not invoked and the mapped proxy results are shown. -/
theorem spec_C7_fallback_once (rs : List RawPlace)
    (ai : Int → Int → String → Except Unit (List Hospital))
    (lat lon : Int) (lang : String) (hs : List Hospital)
    (hai : ai lat lon lang = Except.ok hs) (hrs : rs ≠ []) :
    fetchStage ProxyOutcome.netError ai lat lon lang =
      FetchResult.mk hs [(lat, lon, lang)] none ∧
    fetchStage (ProxyOutcome.ok []) ai lat lon lang =
      FetchResult.mk hs [(lat, lon, lang)] none ∧
    fetchStage (ProxyOutcome.ok rs) ai lat lon lang =
      FetchResult.mk (mapRawPlaces lat lon rs) [] none := by
  refine ⟨?_, ?_, ?_⟩
  · simp [fetchStage, runFallback, hai]
  · simp [fetchStage, runFallback, mapRawPlaces, hai]
  · cases rs with
    | nil => exact absurd rfl hrs
    | cons a t => simp [fetchStage, mapRawPlaces]

/-- Witness for spec_C7_fallback_once at a concrete search. -/
theorem spec_C7_fallback_once_witness :
    (fun _ _ _ => Except.ok [Hospital.mk ("H") ("Addr") none none 10 20]
        : Int → Int → String → Except Unit (List Hospital)) 10 20 ("en") =
      Except.ok [Hospital.mk ("H") ("Addr") none none 10 20] ∧
    ([RawPlace.mk ("G") (some ("Road 1")) none (some 11) (some 21)]
        : List RawPlace) ≠ [] ∧
    (fetchStage ProxyOutcome.netError
        (fun _ _ _ => Except.ok [Hospital.mk ("H") ("Addr") none none 10 20])
        10 20 ("en") =
      FetchResult.mk [Hospital.mk ("H") ("Addr") none none 10 20]
        [(10, 20, ("en"))] none ∧
      fetchStage (ProxyOutcome.ok [])
          (fun _ _ _ => Except.ok [Hospital.mk ("H") ("Addr") none none 10 20])
          10 20 ("en") =
        FetchResult.mk [Hospital.mk ("H") ("Addr") none none 10 20]
          [(10, 20, ("en"))] none ∧
      fetchStage
          (ProxyOutcome.ok [RawPlace.mk ("G") (some ("Road 1")) none (some 11) (some 21)])
          (fun _ _ _ => Except.ok [Hospital.mk ("H") ("Addr") none none 10 20])
          10 20 ("en") =
        FetchResult.mk
          (mapRawPlaces 10 20 [RawPlace.mk ("G") (some ("Road 1")) none (some 11) (some 21)])
          [] none) :=
  ⟨rfl, by simp,
    spec_C7_fallback_once
      [RawPlace.mk ("G") (some ("Road 1")) none (some 11) (some 21)]
      (fun _ _ _ => Except.ok [Hospital.mk ("H") ("Addr") none none 10 20])
      10 20 ("en") [Hospital.mk ("H") ("Addr") none none 10 20]
      rfl (by simp)⟩

/-- C8: the /api/nearby-hospitals route answers 400 with no upstream
request when lat or lon is missing or empty; when both are present it
issues exactly one upstream request, built with the fixed 5 km radius and
the truthy keyword, answering 200 with the upstream JSON unchanged when
the call succeeds and 500 when it throws. -/
theorem spec_C8_route (lat lon lat2 lon2 keyword : Option String)
    (kw apiKey d : String)
    (upstream upstream2 : UpstreamRequest → UpstreamOutcome)
    (hmiss : jsTruthy lat = false ∨ jsTruthy lon = false)
    (h1 : jsTruthy lat2 = true) (h2 : jsTruthy lon2 = true)
    (hk : keyword = some kw) (hkw : kw ≠ "")
    (hok : upstream (buildUpstreamRequest lat2 lon2 keyword apiKey) =
      UpstreamOutcome.ok d)
    (hthrow : upstream2 (buildUpstreamRequest lat2 lon2 keyword apiKey) =
      UpstreamOutcome.throws) :
    nearbyHospitalsRoute lat lon keyword apiKey upstream =
      (400, ResponseBody.errorMsg ("lat and lon are required"), []) ∧
    nearbyHospitalsRoute lat2 lon2 keyword apiKey upstream =
      (200, ResponseBody.json d, [buildUpstreamRequest lat2 lon2 keyword apiKey]) ∧
    nearbyHospitalsRoute lat2 lon2 keyword apiKey upstream2 =
      (500, ResponseBody.errorMsg ("Failed to fetch nearby hospitals"),
        [buildUpstreamRequest lat2 lon2 keyword apiKey]) ∧
    (buildUpstreamRequest lat2 lon2 keyword apiKey).radius = ("5000") ∧
    (buildUpstreamRequest lat2 lon2 keyword apiKey).keyword = some kw := by
  refine ⟨?_, ?_, ?_, rfl, ?_⟩
  · rcases hmiss with hm | hm <;> simp [nearbyHospitalsRoute, hm]
  · simp [nearbyHospitalsRoute, h1, h2, hok]
  · simp [nearbyHospitalsRoute, h1, h2, hthrow]
  · simp [buildUpstreamRequest, hk, hkw]

/-- Witness for spec_C8_route at concrete requests. -/
theorem spec_C8_route_witness :
    (jsTruthy none = false ∨ jsTruthy (some ("90.4")) = false) ∧
    jsTruthy (some ("23.8")) = true ∧
    jsTruthy (some ("90.4")) = true ∧
    (some ("cardiology") : Option String) = some ("cardiology") ∧
    ("cardiology" : String) ≠ "" ∧
    (fun _ => UpstreamOutcome.ok ("payload") : UpstreamRequest → UpstreamOutcome)
        (buildUpstreamRequest (some ("23.8")) (some ("90.4")) (some ("cardiology"))
          ("key")) =
      UpstreamOutcome.ok ("payload") ∧
    (fun _ => UpstreamOutcome.throws : UpstreamRequest → UpstreamOutcome)
        (buildUpstreamRequest (some ("23.8")) (some ("90.4")) (some ("cardiology"))
          ("key")) =
      UpstreamOutcome.throws ∧
    (nearbyHospitalsRoute none (some ("90.4")) (some ("cardiology")) ("key")
        (fun _ => UpstreamOutcome.ok ("payload")) =
      (400, ResponseBody.errorMsg ("lat and lon are required"), []) ∧
      nearbyHospitalsRoute (some ("23.8")) (some ("90.4")) (some ("cardiology")) ("key")
          (fun _ => UpstreamOutcome.ok ("payload")) =
        (200, ResponseBody.json ("payload"),
          [buildUpstreamRequest (some ("23.8")) (some ("90.4")) (some ("cardiology"))
            ("key")]) ∧
      nearbyHospitalsRoute (some ("23.8")) (some ("90.4")) (some ("cardiology")) ("key")
          (fun _ => UpstreamOutcome.throws) =
        (500, ResponseBody.errorMsg ("Failed to fetch nearby hospitals"),
          [buildUpstreamRequest (some ("23.8")) (some ("90.4")) (some ("cardiology"))
            ("key")]) ∧
      (buildUpstreamRequest (some ("23.8")) (some ("90.4")) (some ("cardiology"))
          ("key")).radius = ("5000") ∧
      (buildUpstreamRequest (some ("23.8")) (some ("90.4")) (some ("cardiology"))
          ("key")).keyword = some ("cardiology")) :=
  ⟨Or.inl rfl, rfl, rfl, rfl, by decide, rfl, rfl,
    spec_C8_route none (some ("90.4")) (some ("23.8")) (some ("90.4"))
      (some ("cardiology")) ("cardiology") ("key") ("payload")
      (fun _ => UpstreamOutcome.ok ("payload")) (fun _ => UpstreamOutcome.throws)
      (Or.inl rfl) rfl rfl rfl (by decide) rfl rfl⟩

/-- C9: loading the subscription state is a total function that never
propagates a failure: an absent or malformed stored record yields the
default state in both variants (plan basic, usage count 0; in the context
variant with the reset date recomputed at load time). -/
theorem spec_C9_load_never_fails (now : Instant) :
    ctxLoad CtxStoredRecord.absent now = initialCtxState now ∧
    ctxLoad CtxStoredRecord.malformed now = initialCtxState now ∧
    Hook.load Hook.StoredRecord.absent = Hook.DEFAULT_SUBSCRIPTION_STATE ∧
    Hook.load Hook.StoredRecord.malformed = Hook.DEFAULT_SUBSCRIPTION_STATE ∧
    (initialCtxState now).plan = SubscriptionPlan.basic ∧
    (initialCtxState now).nearbyUsageCount = 0 ∧
    Hook.DEFAULT_SUBSCRIPTION_STATE.plan = SubscriptionPlan.basic ∧
    Hook.DEFAULT_SUBSCRIPTION_STATE.nearbyUsageCount = 0 :=
  ⟨rfl, rfl, rfl, rfl, rfl, rfl, rfl, rfl⟩

/-- C10: the hook-variant gate is pro-or-below-limit, with no clock
argument at all; a basic state whose count has reached the stored limit
is denied, and since the state carries no reset timestamp nothing ever
unblocks it in this variant. -/
theorem spec_C10_hook_gate (s t : Hook.SubscriptionState)
    (h1 : t.plan = SubscriptionPlan.basic)
    (h2 : t.nearbyUsageLimit ≤ t.nearbyUsageCount) :
    (Hook.canUseNearby s = true ↔
      (s.plan = SubscriptionPlan.pro ∨
        s.nearbyUsageCount < s.nearbyUsageLimit)) ∧
    Hook.canUseNearby t = false := by
  constructor
  · simp [Hook.canUseNearby]
  · simp [Hook.canUseNearby, h1]
    omega

/-- Witness for spec_C10_hook_gate at concrete states. -/
theorem spec_C10_hook_gate_witness :
    (Hook.SubscriptionState.mk SubscriptionPlan.basic 5 5).plan =
      SubscriptionPlan.basic ∧
    (Hook.SubscriptionState.mk SubscriptionPlan.basic 5 5).nearbyUsageLimit ≤
      (Hook.SubscriptionState.mk SubscriptionPlan.basic 5 5).nearbyUsageCount ∧
    ((Hook.canUseNearby (Hook.SubscriptionState.mk SubscriptionPlan.basic 2 5) = true ↔
      ((Hook.SubscriptionState.mk SubscriptionPlan.basic 2 5).plan =
          SubscriptionPlan.pro ∨
        (Hook.SubscriptionState.mk SubscriptionPlan.basic 2 5).nearbyUsageCount <
          (Hook.SubscriptionState.mk SubscriptionPlan.basic 2 5).nearbyUsageLimit)) ∧
      Hook.canUseNearby (Hook.SubscriptionState.mk SubscriptionPlan.basic 5 5) = false) :=
  ⟨rfl, by decide,
    spec_C10_hook_gate (Hook.SubscriptionState.mk SubscriptionPlan.basic 2 5)
      (Hook.SubscriptionState.mk SubscriptionPlan.basic 5 5) rfl (by decide)⟩
